import Mathlib

/-!
Verification development for the MongodbUtilities repository.

The repository builds Mongo filters through a `QuerySet` accumulator,
emulates cross-collection joins by a two-step lookup, and wraps the
driver's CRUD calls in thin helpers.  This file gives a shallow embedding
of that code: BSON values become the inductive `BVal`, the external
Mongo store becomes an explicit deterministic `Store` record of response
functions, and every helper returns — next to its Go results — the list
of store calls it issued, so that "performs exactly one insert" style
properties are statable.
-/

/-- Shallow embedding of a BSON value (`interface\x7b\x7d` / `bson.M` in the Go
source).  A `bson.M` document is `BVal.doc`, an array is `BVal.arr`. -/
inductive BVal : Type where
  | null : BVal
  | int (n : Int) : BVal
  | str (s : String) : BVal
  | oid (id : List Nat) : BVal
  | bool (b : Bool) : BVal
  | arr (xs : List BVal) : BVal
  | doc (fields : List (String × BVal)) : BVal

/-- A decoded document, as produced by the driver (`map[string]interface\x7b\x7d`). -/
abbrev Doc := List (String × BVal)

/-- A 12-byte Mongo ObjectID, modelled as its byte list. -/
abbrev ObjectID := List Nat

/-- The all-zero sentinel `primitive.NilObjectID`. -/
def NilObjectID : ObjectID := List.replicate 12 0

mutual

/-- Boolean structural equality on `BVal`. -/
def bvalEq : BVal → BVal → Bool
  | .null, .null => true
  | .int a, .int b => a == b
  | .str a, .str b => a == b
  | .oid a, .oid b => a == b
  | .bool a, .bool b => a == b
  | .arr xs, .arr ys => bvalListEq xs ys
  | .doc xs, .doc ys => bvalFieldsEq xs ys
  | _, _ => false

/-- Structural equality on lists of `BVal`. -/
def bvalListEq : List BVal → List BVal → Bool
  | [], [] => true
  | x :: xs, y :: ys => bvalEq x y && bvalListEq xs ys
  | _, _ => false

/-- Structural equality on lists of named `BVal` fields. -/
def bvalFieldsEq : List (String × BVal) → List (String × BVal) → Bool
  | [], [] => true
  | (k, v) :: xs, (l, w) :: ys => k == l && bvalEq v w && bvalFieldsEq xs ys
  | _, _ => false

end

instance : BEq BVal := ⟨bvalEq⟩

/-- Membership of a `BVal` in a list, up to `bvalEq`. -/
def bvalMem (v : BVal) (vs : List BVal) : Bool :=
  vs.any (fun w => bvalEq v w)

/-- Go map indexing `entry[key]`: the value stored at `key`, or the zero
value (`nil`, here `BVal.null`) when the key is absent. -/
def lookupField (d : Doc) (k : String) : BVal :=
  match d.find? (fun p => p.1 == k) with
  | some p => p.2
  | none => .null

/-- Go map assignment `m[k] = v`: overwrite the existing entry or append a
new one. -/
def mapInsert (m : List (String × Int)) (k : String) (v : Int) : List (String × Int) :=
  if m.any (fun p => p.1 == k) then m.map (fun p => if p.1 == k then (k, v) else p)
  else m ++ [(k, v)]

/-- The find-options bag (`options.FindOptions`), restricted to the fields
this repository sets.  `options.Find()` is the record with every field
absent, i.e. the default value below. -/
structure FindOpts : Type where
  limit : Option Int := none
  skip : Option Int := none
  sort : Option BVal := none
  projection : Option (List (String × Int)) := none

/-- The update-options bag (`options.UpdateOptions`); the repository never
sets a field itself, callers may. -/
structure UpdateOpts : Type where
  upsert : Option Bool := none

/-- The delete-options bag (`options.DeleteOptions`). -/
structure DeleteOpts : Type where
  comment : Option String := none

/-- Errors reported by the external store.  `noDocuments` embeds the
driver sentinel `mongo.ErrNoDocuments`; `fault` stands for every other
failure (network, authorization, timeout, decode, ...). -/
inductive StoreErr : Type where
  | noDocuments : StoreErr
  | fault (code : Nat) : StoreErr
deriving DecidableEq

/-- Result of a successful `InsertOne`. -/
structure InsertOneResult : Type where
  insertedID : ObjectID

/-- Result of a successful `UpdateOne` / `UpdateMany`. -/
structure UpdateResult : Type where
  matchedCount : Int := 0
  modifiedCount : Int := 0

/-- Result of a successful `DeleteOne` / `DeleteMany`. -/
structure DeleteResult : Type where
  deletedCount : Int := 0

/-- What `cursor.All` will yield for a cursor: either a decode error or the
full list of matching documents in retrieval order. -/
abbrev Cursor := Except StoreErr (List Doc)

/-- One call issued to the external store.  Helpers below record the calls
they make, so that claims about which operations run (and with which
options bags) are statable. -/
inductive StoreCall : Type where
  | findOne (collection : String) (filter : BVal)
  | find (collection : String) (filter : BVal) (opts : Option FindOpts)
  | insertOne (collection : String) (document : BVal)
  | updateOne (collection : String) (filter update : BVal) (opts : Option UpdateOpts)
  | updateMany (collection : String) (filter update : BVal) (opts : Option UpdateOpts)
  | deleteOne (collection : String) (filter : BVal) (opts : Option DeleteOpts)
  | deleteMany (collection : String) (filter : BVal) (opts : Option DeleteOpts)

/-- The external document store (a `*mongo.Database` plus the driver),
modelled as a deterministic environment: for every request it fixes the
response.  `find` returns the Go pair `(cursor, err)`, where the cursor —
when present — is the outcome its `All` method will produce. -/
structure Store : Type where
  findOne : String → BVal → Except StoreErr Doc
  find : String → BVal → Option FindOpts → Option Cursor × Option StoreErr
  insertOne : String → BVal → Except StoreErr InsertOneResult
  updateOne : String → BVal → BVal → Option UpdateOpts → Except StoreErr UpdateResult
  updateMany : String → BVal → BVal → Option UpdateOpts → Except StoreErr UpdateResult
  deleteOne : String → BVal → Option DeleteOpts → Except StoreErr DeleteResult
  deleteMany : String → BVal → Option DeleteOpts → Except StoreErr DeleteResult

mutual

/-- Embedding of the Go struct `QuerySet` (src/unnamed/part_000): the list
of AND-ed filter fragments, the three lazily initialized option bags, and
the declared joins. -/
inductive QuerySet : Type where
  | mk (query : List BVal) (findOptions : Option FindOpts)
      (updateOptions : Option UpdateOpts) (deleteOptions : Option DeleteOpts)
      (joins : List QueryJoin) : QuerySet

/-- Embedding of the Go struct `QueryJoin`: local field, foreign field,
foreign collection, and the foreign `QuerySet`. -/
inductive QueryJoin : Type where
  | mk (field joinField joinCollection : String) (query : QuerySet) : QueryJoin

end

/-- Field accessor for `QuerySet.Query`. -/
def QuerySet.Query : QuerySet → List BVal
  | .mk q _ _ _ _ => q

/-- Field accessor for `QuerySet.FindOptions`. -/
def QuerySet.FindOptions : QuerySet → Option FindOpts
  | .mk _ fo _ _ _ => fo

/-- Field accessor for `QuerySet.UpdateOptions`. -/
def QuerySet.UpdateOptions : QuerySet → Option UpdateOpts
  | .mk _ _ uo _ _ => uo

/-- Field accessor for `QuerySet.DeleteOptions`. -/
def QuerySet.DeleteOptions : QuerySet → Option DeleteOpts
  | .mk _ _ _ deleteOpts _ => deleteOpts

/-- Field accessor for `QuerySet.Joins`. -/
def QuerySet.Joins : QuerySet → List QueryJoin
  | .mk _ _ _ _ js => js

/-- Field accessor for `QueryJoin.Field`. -/
def QueryJoin.Field : QueryJoin → String
  | .mk f _ _ _ => f

/-- Field accessor for `QueryJoin.JoinField`. -/
def QueryJoin.JoinField : QueryJoin → String
  | .mk _ jf _ _ => jf

/-- Field accessor for `QueryJoin.JoinCollection`. -/
def QueryJoin.JoinCollection : QueryJoin → String
  | .mk _ _ jc _ => jc

/-- Field accessor for `QueryJoin.Query`. -/
def QueryJoin.Query : QueryJoin → QuerySet
  | .mk _ _ _ q => q

/-- The zero value `var query QuerySet`: no fragments, nil option bags, no
joins. -/
def emptyQuerySet : QuerySet := .mk [] none none none []

/-- Go method `QuerySet.Filter`: appends each given fragment to the filter
list unchanged (variadic argument modelled as a list). -/
def QuerySet.Filter (qs : QuerySet) (queries : List BVal) : QuerySet :=
  match qs with
  | .mk q fo uo deleteOpts js => .mk (q ++ queries) fo uo deleteOpts js

/-- Go method `QuerySet.Exclude`: appends the single fragment
`bson.M\x7b"$nor": queries\x7d`. -/
def QuerySet.Exclude (qs : QuerySet) (queries : List BVal) : QuerySet :=
  match qs with
  | .mk q fo uo deleteOpts js =>
      .mk (q ++ [BVal.doc [("$nor", BVal.arr queries)]]) fo uo deleteOpts js

/-- Go method `QuerySet.Join`: appends a join declaration. -/
def QuerySet.Join (qs : QuerySet) (field joinField joinCollection : String)
    (joinQuery : QuerySet) : QuerySet :=
  match qs with
  | .mk q fo uo deleteOpts js =>
      .mk q fo uo deleteOpts (js ++ [QueryJoin.mk field joinField joinCollection joinQuery])

/-- Go method `QuerySet.InitializeOptions`: every option bag that is still
nil is set to the driver default (`options.Find()` etc.). -/
def QuerySet.InitializeOptions (qs : QuerySet) : QuerySet :=
  match qs with
  | .mk q fo uo deleteOpts js =>
      .mk q (some (fo.getD {})) (some (uo.getD {})) (some (deleteOpts.getD {})) js

/-- Go method `QuerySet.Limit`: initializes the option bags, then sets the
find-options limit.  After `InitializeOptions` the find bag is non-nil, so
the `getD` default branch is unreachable. -/
def QuerySet.Limit (qs : QuerySet) (limit : Int) : QuerySet :=
  match qs.InitializeOptions with
  | .mk q fo uo deleteOpts js =>
      .mk q (some { fo.getD {} with limit := some limit }) uo deleteOpts js

/-- Go method `QuerySet.Sort`: initializes the option bags, then sets the
find-options sort specification. -/
def QuerySet.Sort (qs : QuerySet) (sort : BVal) : QuerySet :=
  match qs.InitializeOptions with
  | .mk q fo uo deleteOpts js =>
      .mk q (some { fo.getD {} with sort := some sort }) uo deleteOpts js

/-- Go method `QuerySet.Skip`: initializes the option bags, then sets the
find-options skip. -/
def QuerySet.Skip (qs : QuerySet) (limit : Int) : QuerySet :=
  match qs.InitializeOptions with
  | .mk q fo uo deleteOpts js =>
      .mk q (some { fo.getD {} with skip := some limit }) uo deleteOpts js

/-- Go method `QuerySet.Fields`: initializes the option bags, builds the
map sending each named field to 1, and sets it as the projection. -/
def QuerySet.Fields (qs : QuerySet) (fields : List String) : QuerySet :=
  match qs.InitializeOptions with
  | .mk q fo uo deleteOpts js =>
      let filterFields := fields.foldl (fun m field => mapInsert m field 1) []
      .mk q (some { fo.getD {} with projection := some filterFields }) uo deleteOpts js

/-- Go method `QuerySet.ExcludeFields`: like `Fields` but maps each named
field to 0. -/
def QuerySet.ExcludeFields (qs : QuerySet) (fields : List String) : QuerySet :=
  match qs.InitializeOptions with
  | .mk q fo uo deleteOpts js =>
      let filterFields := fields.foldl (fun m field => mapInsert m field 0) []
      .mk q (some { fo.getD {} with projection := some filterFields }) uo deleteOpts js

/-- Go function `CreateQuery`: a fresh `QuerySet` seeded through `Filter`. -/
def CreateQuery (queries : List BVal) : QuerySet :=
  QuerySet.Filter emptyQuerySet queries

/-- Go function `PaginateQuery`: applies `Skip` when a skip value is
provided, then `Limit` when a limit value is provided. -/
def PaginateQuery (query : QuerySet) (skip : Option Int) (limit : Option Int) : QuerySet :=
  let query := match skip with
    | some s => query.Skip s
    | none => query
  match limit with
  | some l => query.Limit l
  | none => query

mutual

/-- Termination measure: size of a query set, counting only the join tree
(option bags and fragments are irrelevant to the recursion in `Build`). -/
def QuerySet.weight : QuerySet → Nat
  | .mk _ _ _ _ js => joinsWeight js + 1

/-- Termination measure on a list of join declarations. -/
def joinsWeight : List QueryJoin → Nat
  | [] => 0
  | j :: rest => QueryJoin.weight j + 1 + joinsWeight rest

/-- Termination measure on a join declaration. -/
def QueryJoin.weight : QueryJoin → Nat
  | .mk _ _ _ q => QuerySet.weight q + 1

end

theorem QuerySet.weight_eq (qs : QuerySet) : qs.weight = joinsWeight qs.Joins + 1 := by
  cases qs
  rfl

theorem QuerySet.Fields_Joins (qs : QuerySet) (fields : List String) :
    (qs.Fields fields).Joins = qs.Joins := by
  cases qs
  rfl

theorem QuerySet.Fields_weight (qs : QuerySet) (fields : List String) :
    (qs.Fields fields).weight = qs.weight := by
  rw [QuerySet.weight_eq, QuerySet.weight_eq, QuerySet.Fields_Joins]

mutual

/-- Go method `QuerySet.Build` (src/unnamed/part_000, lines 99-117): when
joins are declared, evaluates each join in order and appends every non-nil
resulting fragment to the filter list through `Filter`, then returns
`bson.M\x7b"$and": instance.Query\x7d`; without joins it returns the same
document unchanged.  The returned triple is (mutated query set, built
filter, store calls issued). -/
def QuerySet.Build (database : Store) (qs : QuerySet) : QuerySet × BVal × List StoreCall :=
  match qs with
  | .mk q fo uo deleteOpts js =>
    if js.length > 0 then
      let t := buildJoins database js
      let q2 := q ++ t.2.1
      (.mk q2 fo uo deleteOpts t.1, BVal.doc [("$and", BVal.arr q2)], t.2.2)
    else
      (.mk q fo uo deleteOpts js, BVal.doc [("$and", BVal.arr q)], [])
termination_by 4 * qs.weight
decreasing_by
  simp [QuerySet.weight]
  omega

/-- The loop body of `Build` over the declared joins: evaluates each join,
collects the non-nil fragments in order (`Option.toList`), the updated
join declarations (the foreign query sets are mutated through their
pointers), and the store calls. -/
def buildJoins (database : Store) (js : List QueryJoin) :
    List QueryJoin × List BVal × List StoreCall :=
  match js with
  | [] => ([], [], [])
  | j :: rest =>
    let e := EvaluateJoin database j
    let b := buildJoins database rest
    (e.1 :: b.1, e.2.1.toList ++ b.2.1, e.2.2 ++ b.2.2)
termination_by 4 * joinsWeight js + 3
decreasing_by
  all_goals simp [joinsWeight, QueryJoin.weight]
  all_goals omega

/-- Go function `EvaluateJoin` (src/unnamed/part_000, lines 66-96): runs
`GetDocuments` on the foreign collection with the foreign query projected
to the foreign field; on a nil cursor, a retrieval error, or an `All`
decode error it returns nil, otherwise it collects `entry[join.JoinField]`
from every returned document, in order, and returns
`bson.M\x7bjoin.Field: bson.M\x7b"$in": _ids\x7d\x7d`.  Also returns the
mutated join declaration (its foreign query set was changed by `Fields`
and by the inner `Build`). -/
def EvaluateJoin (database : Store) (j : QueryJoin) :
    QueryJoin × Option BVal × List StoreCall :=
  match j with
  | .mk field joinField joinCollection q =>
    let g := GetDocuments database joinCollection (q.Fields [joinField])
    let j2 := QueryJoin.mk field joinField joinCollection g.1
    match g.2.1 with
    | (none, _) => (j2, none, g.2.2)
    | (some _, some _) => (j2, none, g.2.2)
    | (some cursor, none) =>
      match cursor with
      | .error _ => (j2, none, g.2.2)
      | .ok entries =>
        let _ids := entries.map (fun entry => lookupField entry joinField)
        (j2, some (BVal.doc [(field, BVal.doc [("$in", BVal.arr _ids)])]), g.2.2)
termination_by 4 * j.weight + 2
decreasing_by
  simp [QueryJoin.weight, QuerySet.Fields_weight]
  omega

/-- Go function `GetDocuments` (src/unnamed/part_000, lines 335-352): a
`Find` against the collection with the built filter, passing the query
set's find-options bag exactly when it is non-nil.  Returns the mutated
query set, the driver pair (cursor, error), and the calls issued (the
inner `Build` calls followed by the `Find` itself). -/
def GetDocuments (database : Store) (collectionName : String) (query : QuerySet) :
    QuerySet × (Option Cursor × Option StoreErr) × List StoreCall :=
  match query.FindOptions with
  | some fo =>
    let b := QuerySet.Build database query
    (b.1, database.find collectionName b.2.1 (some fo),
      b.2.2 ++ [StoreCall.find collectionName b.2.1 (some fo)])
  | none =>
    let b := QuerySet.Build database query
    (b.1, database.find collectionName b.2.1 none,
      b.2.2 ++ [StoreCall.find collectionName b.2.1 none])
termination_by 4 * query.weight + 1
decreasing_by
  all_goals omega

end

theorem buildJoins_nil (database : Store) : buildJoins database [] = ([], [], []) := by
  simp [buildJoins]

theorem buildJoins_cons (database : Store) (j : QueryJoin) (rest : List QueryJoin) :
    buildJoins database (j :: rest) =
      ((EvaluateJoin database j).1 :: (buildJoins database rest).1,
       (EvaluateJoin database j).2.1.toList ++ (buildJoins database rest).2.1,
       (EvaluateJoin database j).2.2 ++ (buildJoins database rest).2.2) := by
  simp [buildJoins]

/-- Master equation for `Build`: the mutated query set appends the non-nil
join fragments to the filter list, the built filter is the AND of that
appended list, and the calls are those of the join evaluations. -/
theorem build_mk (database : Store) (q : List BVal) (fo : Option FindOpts)
    (uo : Option UpdateOpts) (deleteOpts : Option DeleteOpts) (js : List QueryJoin) :
    QuerySet.Build database (.mk q fo uo deleteOpts js) =
      (.mk (q ++ (buildJoins database js).2.1) fo uo deleteOpts (buildJoins database js).1,
       BVal.doc [("$and", BVal.arr (q ++ (buildJoins database js).2.1))],
       (buildJoins database js).2.2) := by
  cases js with
  | nil => simp [QuerySet.Build, buildJoins]
  | cons j rest => simp [QuerySet.Build]

theorem getDocuments_eq (database : Store) (collectionName : String) (query : QuerySet) :
    GetDocuments database collectionName query =
      ((QuerySet.Build database query).1,
       database.find collectionName (QuerySet.Build database query).2.1 query.FindOptions,
       (QuerySet.Build database query).2.2 ++
         [StoreCall.find collectionName (QuerySet.Build database query).2.1 query.FindOptions]) := by
  cases h : query.FindOptions with
  | some fo => simp [GetDocuments, h]
  | none => simp [GetDocuments, h]

/-- Go test `res == nil || err != nil` followed by the `res.All` error
check, applied to the lookup a join evaluation performs: true exactly when
`EvaluateJoin` hits one of its three bail-out branches. -/
def joinLookupFailed (database : Store) (j : QueryJoin) : Bool :=
  match j with
  | .mk _ joinField joinCollection q =>
    match (GetDocuments database joinCollection (q.Fields [joinField])).2.1 with
    | (none, _) => true
    | (some _, some _) => true
    | (some (.error _), none) => true
    | (some (.ok _), none) => false

theorem evaluateJoin_of_failed (database : Store) (j : QueryJoin)
    (h : joinLookupFailed database j = true) :
    (EvaluateJoin database j).2.1 = none := by
  obtain ⟨field, joinField, joinCollection, q⟩ := j
  rcases hg : (GetDocuments database joinCollection (q.Fields [joinField])).2.1 with ⟨c, e⟩
  simp only [joinLookupFailed, hg] at h
  cases c with
  | none => simp [EvaluateJoin, hg]
  | some cursor =>
    cases e with
    | some err => simp [EvaluateJoin, hg]
    | none =>
      cases cursor with
      | error err => simp [EvaluateJoin, hg]
      | ok entries => simp at h

theorem evaluateJoin_of_ok (database : Store) (field joinField joinCollection : String)
    (q : QuerySet) (entries : List Doc)
    (hg : (GetDocuments database joinCollection (q.Fields [joinField])).2.1 =
      (some (Except.ok entries), none)) :
    EvaluateJoin database (.mk field joinField joinCollection q) =
      (QueryJoin.mk field joinField joinCollection
         (GetDocuments database joinCollection (q.Fields [joinField])).1,
       some (BVal.doc [(field, BVal.doc
         [("$in", BVal.arr (entries.map (fun entry => lookupField entry joinField)))])]),
       (GetDocuments database joinCollection (q.Fields [joinField])).2.2) := by
  simp [EvaluateJoin, hg]

/-- Go function `GetDocument` (src/unnamed/part_000, lines 310-331): a
`FindOne` with the built filter.  The driver sentinel
`mongo.ErrNoDocuments` is normalized to the Go pair `(nil, nil)` — an
explicit not-found with no error; every other error is returned as
`(nil, err)`; success is `(result, nil)`. -/
def GetDocument (database : Store) (collectionName : String) (query : QuerySet) :
    QuerySet × (Option Doc × Option StoreErr) × List StoreCall :=
  let b := QuerySet.Build database query
  let calls := b.2.2 ++ [StoreCall.findOne collectionName b.2.1]
  match database.findOne collectionName b.2.1 with
  | .error e =>
    if e = StoreErr.noDocuments then (b.1, (none, none), calls)
    else (b.1, (none, some e), calls)
  | .ok res => (b.1, (some res, none), calls)

/-- Go function `InsertDocument`: a direct `InsertOne`, the driver pair
modelled as `Except`. -/
def InsertDocument (database : Store) (collectionName : String) (document : BVal) :
    Except StoreErr InsertOneResult × List StoreCall :=
  (database.insertOne collectionName document,
   [StoreCall.insertOne collectionName document])

/-- Go function `UpdateDocument` (src/unnamed/part_000, lines 356-377): an
`UpdateOne` with the built filter; the query set's update-options bag is
passed exactly when it is non-nil. -/
def UpdateDocument (database : Store) (collectionName : String) (query : QuerySet)
    (update : BVal) :
    QuerySet × Except StoreErr UpdateResult × List StoreCall :=
  match query.UpdateOptions with
  | some opts =>
    let b := QuerySet.Build database query
    (b.1, database.updateOne collectionName b.2.1 update (some opts),
     b.2.2 ++ [StoreCall.updateOne collectionName b.2.1 update (some opts)])
  | none =>
    let b := QuerySet.Build database query
    (b.1, database.updateOne collectionName b.2.1 update none,
     b.2.2 ++ [StoreCall.updateOne collectionName b.2.1 update none])

/-- Go function `UpdateDocuments` (src/unnamed/part_000, lines 381-402):
the `UpdateMany` variant of `UpdateDocument`. -/
def UpdateDocuments (database : Store) (collectionName : String) (query : QuerySet)
    (update : BVal) :
    QuerySet × Except StoreErr UpdateResult × List StoreCall :=
  match query.UpdateOptions with
  | some opts =>
    let b := QuerySet.Build database query
    (b.1, database.updateMany collectionName b.2.1 update (some opts),
     b.2.2 ++ [StoreCall.updateMany collectionName b.2.1 update (some opts)])
  | none =>
    let b := QuerySet.Build database query
    (b.1, database.updateMany collectionName b.2.1 update none,
     b.2.2 ++ [StoreCall.updateMany collectionName b.2.1 update none])

/-- Go function `DeleteDocument` (src/unnamed/part_000, lines 406-426): a
`DeleteOne` with the built filter; the delete-options bag is passed
exactly when it is non-nil. -/
def DeleteDocument (database : Store) (collectionName : String) (query : QuerySet) :
    QuerySet × Except StoreErr DeleteResult × List StoreCall :=
  match query.DeleteOptions with
  | some opts =>
    let b := QuerySet.Build database query
    (b.1, database.deleteOne collectionName b.2.1 (some opts),
     b.2.2 ++ [StoreCall.deleteOne collectionName b.2.1 (some opts)])
  | none =>
    let b := QuerySet.Build database query
    (b.1, database.deleteOne collectionName b.2.1 none,
     b.2.2 ++ [StoreCall.deleteOne collectionName b.2.1 none])

/-- Go function `DeleteDocuments` (src/unnamed/part_000, lines 430-450):
the `DeleteMany` variant of `DeleteDocument`. -/
def DeleteDocuments (database : Store) (collectionName : String) (query : QuerySet) :
    QuerySet × Except StoreErr DeleteResult × List StoreCall :=
  match query.DeleteOptions with
  | some opts =>
    let b := QuerySet.Build database query
    (b.1, database.deleteMany collectionName b.2.1 (some opts),
     b.2.2 ++ [StoreCall.deleteMany collectionName b.2.1 (some opts)])
  | none =>
    let b := QuerySet.Build database query
    (b.1, database.deleteMany collectionName b.2.1 none,
     b.2.2 ++ [StoreCall.deleteMany collectionName b.2.1 none])

namespace GoMain

/-- Go method `QuerySet.Build` from src/MongodbUtilities.go (lines 40-44):
the joins-free variant, a pure function of the filter list.  The struct in
that file has no `Joins` field, which the shared `QuerySet` embedding
represents by the field simply being ignored here. -/
def Build (query : QuerySet) : BVal :=
  BVal.doc [("$and", BVal.arr query.Query)]

/-- Go function `UpdateDocument` from src/MongodbUtilities.go (lines
256-270): an `UpdateOne` that never passes an options bag. -/
def UpdateDocument (database : Store) (collectionName : String) (query : QuerySet)
    (update : BVal) :
    Except StoreErr UpdateResult × List StoreCall :=
  (database.updateOne collectionName (Build query) update none,
   [StoreCall.updateOne collectionName (Build query) update none])

/-- Go function `DeleteDocument` from src/MongodbUtilities.go (lines
292-305): a `DeleteOne` that never passes an options bag. -/
def DeleteDocument (database : Store) (collectionName : String) (query : QuerySet) :
    Except StoreErr DeleteResult × List StoreCall :=
  (database.deleteOne collectionName (Build query) none,
   [StoreCall.deleteOne collectionName (Build query) none])

end GoMain

/-- The error component of a Go `(result, err)` pair modelled as `Except`. -/
def exceptErr {E A : Type} : Except E A → Option E
  | .ok _ => none
  | .error e => some e

/-- A value implementing the Go interface `BaseModel`: it can report and
accept an `_id` value; `repr` is its serialized document form, which the
driver receives on insert and inside the `$set` update. -/
structure Model : Type where
  id : ObjectID
  repr : BVal

/-- Interface method `GetID`. -/
def Model.GetID (m : Model) : ObjectID := m.id

/-- Interface method `SetID`. -/
def Model.SetID (m : Model) (v : ObjectID) : Model := { m with id := v }

/-- Go function `SaveModel` (src/unnamed/part_000, lines 216-238): when
the model's identity is the nil sentinel, insert it and — only when the
insert reported no error — write the generated identity back; otherwise
update the document with that identity with a `$set` of the model, via a
fresh `QuerySet` filtered on `_id`.  Returns the (possibly updated) model,
the branch's error unchanged, and the store calls issued. -/
def SaveModel (m : Model) (database : Store) (collectionName : String) :
    Model × Option StoreErr × List StoreCall :=
  if m.GetID = NilObjectID then
    let r := InsertDocument database collectionName m.repr
    match r.1 with
    | .ok res => (m.SetID res.insertedID, none, r.2)
    | .error e => (m, some e, r.2)
  else
    let query := QuerySet.Filter emptyQuerySet [BVal.doc [("_id", BVal.oid m.GetID)]]
    let u := UpdateDocument database collectionName query (BVal.doc [("$set", m.repr)])
    (m, exceptErr u.2.1, u.2.2)

/-- Go function `DeleteModel` (src/unnamed/part_000, lines 241-256): a
no-op success when the identity is the nil sentinel, otherwise a
delete-by-identity whose error is surfaced. -/
def DeleteModel (m : Model) (database : Store) (collectionName : String) :
    Option StoreErr × List StoreCall :=
  if m.GetID = NilObjectID then
    (none, [])
  else
    let query := QuerySet.Filter emptyQuerySet [BVal.doc [("_id", BVal.oid m.GetID)]]
    let d := DeleteDocument database collectionName query
    (exceptErr d.2.1, d.2.2)

mutual

/-- Store-side evaluation of a built filter against one document.  This
models the external Mongo matcher for the operators this repository emits:
a document filter is the conjunction of its field conditions, `$and` is
conjunction, `$or` disjunction, `$nor` negated disjunction, a
`\x7b"$in": values\x7d` condition is membership, and any other condition
is equality with the stored field value.  An empty conjunction matches
every document. -/
def matchesFilter : BVal → Doc → Bool
  | .doc conds, d => matchesConds conds d
  | _, _ => false

/-- Conjunction of the conditions of a filter document. -/
def matchesConds : List (String × BVal) → Doc → Bool
  | [], _ => true
  | (k, v) :: rest, d => matchesCond k v d && matchesConds rest d

/-- One key/value condition of a filter document. -/
def matchesCond (k : String) (v : BVal) (d : Doc) : Bool :=
  if k = "$and" then
    match v with
    | .arr fs => allMatch fs d
    | _ => false
  else if k = "$or" then
    match v with
    | .arr fs => anyMatch fs d
    | _ => false
  else if k = "$nor" then
    match v with
    | .arr fs => !anyMatch fs d
    | _ => false
  else
    match v with
    | .doc [("$in", .arr vs)] => bvalMem (lookupField d k) vs
    | _ => bvalEq (lookupField d k) v

/-- Every filter in the list matches. -/
def allMatch : List BVal → Doc → Bool
  | [], _ => true
  | f :: fs, d => matchesFilter f d && allMatch fs d

/-- Some filter in the list matches. -/
def anyMatch : List BVal → Doc → Bool
  | [], _ => false
  | f :: fs, d => matchesFilter f d || anyMatch fs d

end

theorem anyMatch_eq_any (fs : List BVal) (d : Doc) :
    anyMatch fs d = fs.any (fun f => matchesFilter f d) := by
  induction fs with
  | nil => simp [anyMatch]
  | cons f rest ih => simp [anyMatch, ih]

theorem allMatch_eq_all (fs : List BVal) (d : Doc) :
    allMatch fs d = fs.all (fun f => matchesFilter f d) := by
  induction fs with
  | nil => simp [allMatch]
  | cons f rest ih => simp [allMatch, ih]

/-- A fixed non-nil identity the concrete store below hands out on insert. -/
def freshId : ObjectID := 1 :: List.replicate 11 0

/-- A concrete store whose every operation fails (an unreachable backend). -/
def downStore : Store where
  findOne := fun _ _ => .error (StoreErr.fault 7)
  find := fun _ _ _ => (none, some (StoreErr.fault 7))
  insertOne := fun _ _ => .error (StoreErr.fault 7)
  updateOne := fun _ _ _ _ => .error (StoreErr.fault 7)
  updateMany := fun _ _ _ _ => .error (StoreErr.fault 7)
  deleteOne := fun _ _ _ => .error (StoreErr.fault 7)
  deleteMany := fun _ _ _ => .error (StoreErr.fault 7)

/-- A concrete store whose every operation succeeds: `Find` yields one
document whose field "ref" holds 1, inserts hand out `freshId`. -/
def okStore : Store where
  findOne := fun _ _ => .ok [("x", BVal.int 5)]
  find := fun _ _ _ => (some (Except.ok [[("ref", BVal.int 1)]]), none)
  insertOne := fun _ _ => .ok { insertedID := freshId }
  updateOne := fun _ _ _ _ => .ok {}
  updateMany := fun _ _ _ _ => .ok {}
  deleteOne := fun _ _ _ => .ok {}
  deleteMany := fun _ _ _ => .ok {}

/-- A concrete store whose single-document lookup matches nothing. -/
def noDocStore : Store :=
  { downStore with findOne := fun _ _ => .error StoreErr.noDocuments }

/-- A concrete query set declaring one join (local field "a", foreign
field "ref", foreign collection "fcoll", empty foreign query). -/
def joinedQS : QuerySet :=
  .mk [] none none none [QueryJoin.mk "a" "ref" "fcoll" emptyQuerySet]

/-- A concrete query set whose update-options bag has been set by the
caller. -/
def qsWithUpdateOpts : QuerySet :=
  .mk [] none (some { upsert := some true }) none []

/-- A concrete model with the absent identity. -/
def newModel : Model := { id := NilObjectID, repr := BVal.doc [("name", BVal.str "n")] }

/-- A concrete model with a set identity. -/
def savedModel : Model := { id := freshId, repr := BVal.doc [("name", BVal.str "n")] }

/-- Claim C7: every `Exclude(f1, ..., fn)` call appends exactly one new
fragment — a single negated-OR over its arguments, matching a document
exactly when none of the arguments match — and two `Exclude` calls yield
two independently AND-ed negation fragments. -/
theorem exclude_appends_single_nor_fragment (qs : QuerySet) (fs gs : List BVal) :
    (qs.Exclude fs).Query = qs.Query ++ [BVal.doc [("$nor", BVal.arr fs)]] ∧
    ((qs.Exclude fs).Query).length = qs.Query.length + 1 ∧
    ((qs.Exclude fs).Exclude gs).Query =
      qs.Query ++ [BVal.doc [("$nor", BVal.arr fs)], BVal.doc [("$nor", BVal.arr gs)]] ∧
    ∀ d : Doc, (matchesFilter (BVal.doc [("$nor", BVal.arr fs)]) d = true ↔
      ∀ f ∈ fs, matchesFilter f d = false) := by
  obtain ⟨q, fo, uo, deleteOpts, js⟩ := qs
  refine ⟨rfl, ?_, ?_, ?_⟩
  · simp [QuerySet.Exclude, QuerySet.Query]
  · simp [QuerySet.Exclude, QuerySet.Query]
  · intro d
    simp [matchesFilter, matchesConds, matchesCond, anyMatch_eq_any]

/-- Claim C6: on a query set with no accumulated fragments and no joins,
the filter `Build` produces matches every document. -/
theorem empty_build_matches_everything (database : Store) (qs : QuerySet)
    (hq : qs.Query = []) (hj : qs.Joins = []) (d : Doc) :
    matchesFilter (QuerySet.Build database qs).2.1 d = true := by
  obtain ⟨q, fo, uo, deleteOpts, js⟩ := qs
  simp only [QuerySet.Query] at hq
  simp only [QuerySet.Joins] at hj
  subst hq
  subst hj
  simp [build_mk, buildJoins_nil, matchesFilter, matchesConds, matchesCond, allMatch]

/-- Witness for C6 at the empty query set against a concrete store and a
concrete document. -/
theorem empty_build_matches_everything_witness :
    matchesFilter (QuerySet.Build downStore emptyQuerySet).2.1 [("x", BVal.int 5)] = true :=
  empty_build_matches_everything downStore emptyQuerySet rfl rfl [("x", BVal.int 5)]

/-- Claim C9: any single option setter on a query set with all bags absent
materializes all three bags (find, update, and delete), so an
options-honoring update helper afterwards passes a default-valued bag to
the store instead of omitting it. -/
theorem option_setters_materialize_all_bags (qs : QuerySet) (n k : Int) (srt : BVal)
    (fs gs : List String) (database : Store) (coll : String) (upd : BVal)
    (hf : qs.FindOptions = none) (hu : qs.UpdateOptions = none)
    (hd : qs.DeleteOptions = none) :
    ((qs.Limit n).FindOptions.isSome = true ∧
     (qs.Limit n).UpdateOptions = some {} ∧ (qs.Limit n).DeleteOptions = some {}) ∧
    ((qs.Skip k).FindOptions.isSome = true ∧
     (qs.Skip k).UpdateOptions = some {} ∧ (qs.Skip k).DeleteOptions = some {}) ∧
    ((qs.Sort srt).FindOptions.isSome = true ∧
     (qs.Sort srt).UpdateOptions = some {} ∧ (qs.Sort srt).DeleteOptions = some {}) ∧
    ((qs.Fields fs).FindOptions.isSome = true ∧
     (qs.Fields fs).UpdateOptions = some {} ∧ (qs.Fields fs).DeleteOptions = some {}) ∧
    ((qs.ExcludeFields gs).FindOptions.isSome = true ∧
     (qs.ExcludeFields gs).UpdateOptions = some {} ∧
     (qs.ExcludeFields gs).DeleteOptions = some {}) ∧
    (UpdateDocument database coll (qs.Limit n) upd).2.2 =
      (QuerySet.Build database (qs.Limit n)).2.2 ++
        [StoreCall.updateOne coll (QuerySet.Build database (qs.Limit n)).2.1 upd
          (some {})] ∧
    (DeleteDocument database coll (qs.Limit n)).2.2 =
      (QuerySet.Build database (qs.Limit n)).2.2 ++
        [StoreCall.deleteOne coll (QuerySet.Build database (qs.Limit n)).2.1
          (some {})] := by
  obtain ⟨q, fo, uo, deleteOpts, js⟩ := qs
  simp only [QuerySet.FindOptions] at hf
  simp only [QuerySet.UpdateOptions] at hu
  simp only [QuerySet.DeleteOptions] at hd
  subst hf
  subst hu
  subst hd
  refine ⟨⟨rfl, rfl, rfl⟩, ⟨rfl, rfl, rfl⟩, ⟨rfl, rfl, rfl⟩, ⟨rfl, rfl, rfl⟩,
    ⟨rfl, rfl, rfl⟩, ?_, ?_⟩
  · simp [UpdateDocument, QuerySet.Limit, QuerySet.InitializeOptions, QuerySet.UpdateOptions]
  · simp [DeleteDocument, QuerySet.Limit, QuerySet.InitializeOptions, QuerySet.DeleteOptions]

/-- Witness for C9 at the empty query set. -/
theorem option_setters_materialize_all_bags_witness :
    (emptyQuerySet.Limit 3).UpdateOptions = some {} ∧
    (emptyQuerySet.Limit 3).DeleteOptions = some {} :=
  ⟨(option_setters_materialize_all_bags emptyQuerySet 3 0 BVal.null [] [] downStore
      "c" BVal.null rfl rfl rfl).1.2.1,
   (option_setters_materialize_all_bags emptyQuerySet 3 0 BVal.null [] [] downStore
      "c" BVal.null rfl rfl rfl).1.2.2⟩

/-- Claim C8, amended: in the joins-capable implementation
(src/unnamed/part_000) each update/delete helper passes the query set's
corresponding options bag to the store exactly as stored — the bag when
one has been set, nothing (store defaults) when it is absent — while in
the src/MongodbUtilities.go variant the update and delete helpers always
call the store without any options bag. -/
theorem update_delete_helpers_pass_options_bag (database : Store) (coll : String)
    (qs : QuerySet) (upd : BVal) :
    ((UpdateDocument database coll qs upd).2.1 =
       database.updateOne coll (QuerySet.Build database qs).2.1 upd qs.UpdateOptions ∧
     (UpdateDocument database coll qs upd).2.2 =
       (QuerySet.Build database qs).2.2 ++
         [StoreCall.updateOne coll (QuerySet.Build database qs).2.1 upd
           qs.UpdateOptions]) ∧
    ((UpdateDocuments database coll qs upd).2.1 =
       database.updateMany coll (QuerySet.Build database qs).2.1 upd qs.UpdateOptions ∧
     (UpdateDocuments database coll qs upd).2.2 =
       (QuerySet.Build database qs).2.2 ++
         [StoreCall.updateMany coll (QuerySet.Build database qs).2.1 upd
           qs.UpdateOptions]) ∧
    ((DeleteDocument database coll qs).2.1 =
       database.deleteOne coll (QuerySet.Build database qs).2.1 qs.DeleteOptions ∧
     (DeleteDocument database coll qs).2.2 =
       (QuerySet.Build database qs).2.2 ++
         [StoreCall.deleteOne coll (QuerySet.Build database qs).2.1
           qs.DeleteOptions]) ∧
    ((DeleteDocuments database coll qs).2.1 =
       database.deleteMany coll (QuerySet.Build database qs).2.1 qs.DeleteOptions ∧
     (DeleteDocuments database coll qs).2.2 =
       (QuerySet.Build database qs).2.2 ++
         [StoreCall.deleteMany coll (QuerySet.Build database qs).2.1
           qs.DeleteOptions]) ∧
    (GoMain.UpdateDocument database coll qs upd).2 =
      [StoreCall.updateOne coll (GoMain.Build qs) upd none] ∧
    (GoMain.DeleteDocument database coll qs).2 =
      [StoreCall.deleteOne coll (GoMain.Build qs) none] := by
  refine ⟨?_, ?_, ?_, ?_, rfl, rfl⟩
  · cases h : qs.UpdateOptions with
    | some opts => simp [UpdateDocument, h]
    | none => simp [UpdateDocument, h]
  · cases h : qs.UpdateOptions with
    | some opts => simp [UpdateDocuments, h]
    | none => simp [UpdateDocuments, h]
  · cases h : qs.DeleteOptions with
    | some opts => simp [DeleteDocument, h]
    | none => simp [DeleteDocument, h]
  · cases h : qs.DeleteOptions with
    | some opts => simp [DeleteDocuments, h]
    | none => simp [DeleteDocuments, h]

/-- Counterexample for C8 as frozen: the src/MongodbUtilities.go
`UpdateDocument` — one of the helpers the claim names — receives a query
set whose update-options bag has been set, yet issues its store call with
no options bag at all. -/
theorem update_helper_ignores_options_counterexample :
    qsWithUpdateOpts.UpdateOptions = some { upsert := some true } ∧
    (GoMain.UpdateDocument downStore "c" qsWithUpdateOpts (BVal.doc [])).2 =
      [StoreCall.updateOne "c" (BVal.doc [("$and", BVal.arr [])]) (BVal.doc []) none] ∧
    (none : Option UpdateOpts) ≠ some { upsert := some true } := by
  refine ⟨rfl, rfl, by simp⟩

/-- Claim C5: `GetDocument` maps the driver sentinel "no documents" to the
pair (no result, no error), any other retrieval failure to (no result,
that error), and success to (the document, no error) — three structurally
distinct outcomes, so callers separate them without reading error text. -/
theorem getDocument_distinguishes_not_found (database : Store) (coll : String)
    (query : QuerySet) :
    (database.findOne coll (QuerySet.Build database query).2.1 =
        .error StoreErr.noDocuments →
      (GetDocument database coll query).2.1 = (none, none)) ∧
    (∀ e : StoreErr, e ≠ StoreErr.noDocuments →
      database.findOne coll (QuerySet.Build database query).2.1 = .error e →
      (GetDocument database coll query).2.1 = (none, some e)) ∧
    (∀ d : Doc, database.findOne coll (QuerySet.Build database query).2.1 = .ok d →
      (GetDocument database coll query).2.1 = (some d, none)) := by
  refine ⟨?_, ?_, ?_⟩
  · intro h
    simp [GetDocument, h]
  · intro e he h
    simp [GetDocument, h, he]
  · intro d h
    simp [GetDocument, h]

/-- Witness for C5: the three outcomes at three concrete stores. -/
theorem getDocument_distinguishes_not_found_witness :
    (GetDocument noDocStore "c" emptyQuerySet).2.1 = (none, none) ∧
    (GetDocument downStore "c" emptyQuerySet).2.1 = (none, some (StoreErr.fault 7)) ∧
    (GetDocument okStore "c" emptyQuerySet).2.1 = (some [("x", BVal.int 5)], none) :=
  ⟨(getDocument_distinguishes_not_found noDocStore "c" emptyQuerySet).1 rfl,
   (getDocument_distinguishes_not_found downStore "c" emptyQuerySet).2.1
     (StoreErr.fault 7) (by simp) rfl,
   (getDocument_distinguishes_not_found okStore "c" emptyQuerySet).2.2
     [("x", BVal.int 5)] rfl⟩

/-- Claim C4: `SaveModel` on a model with the absent sentinel identity
issues exactly one insert and no update, writing the store-assigned
identity back on success; on a model with a set identity it issues exactly
one update — a `$set` of the model's fields filtered on that `_id` — and
no insert; both branches return the underlying operation's error
unchanged. -/
theorem saveModel_insert_or_update (database : Store) (coll : String) (m : Model) :
    (m.GetID = NilObjectID →
      (SaveModel m database coll).2.2 = [StoreCall.insertOne coll m.repr] ∧
      (SaveModel m database coll).2.1 = exceptErr (database.insertOne coll m.repr) ∧
      (∀ res : InsertOneResult, database.insertOne coll m.repr = .ok res →
        (SaveModel m database coll).1 = m.SetID res.insertedID)) ∧
    (m.GetID ≠ NilObjectID →
      (SaveModel m database coll).2.2 =
        [StoreCall.updateOne coll
          (BVal.doc [("$and", BVal.arr [BVal.doc [("_id", BVal.oid m.GetID)]])])
          (BVal.doc [("$set", m.repr)]) none] ∧
      (SaveModel m database coll).2.1 =
        exceptErr (database.updateOne coll
          (BVal.doc [("$and", BVal.arr [BVal.doc [("_id", BVal.oid m.GetID)]])])
          (BVal.doc [("$set", m.repr)]) none)) := by
  constructor
  · intro hid
    refine ⟨?_, ?_, ?_⟩
    · cases h : database.insertOne coll m.repr with
      | ok res => simp [SaveModel, hid, InsertDocument, h]
      | error e => simp [SaveModel, hid, InsertDocument, h]
    · cases h : database.insertOne coll m.repr with
      | ok res => simp [SaveModel, hid, InsertDocument, h, exceptErr]
      | error e => simp [SaveModel, hid, InsertDocument, h, exceptErr]
    · intro res h
      simp [SaveModel, hid, InsertDocument, h]
  · intro hid
    constructor
    · simp [SaveModel, hid, UpdateDocument, QuerySet.Filter, emptyQuerySet,
        QuerySet.UpdateOptions, build_mk, buildJoins_nil]
    · simp [SaveModel, hid, UpdateDocument, QuerySet.Filter, emptyQuerySet,
        QuerySet.UpdateOptions, build_mk, buildJoins_nil, exceptErr]

/-- Witness for C4: both branches at concrete models against the concrete
succeeding store. -/
theorem saveModel_insert_or_update_witness :
    ((SaveModel newModel okStore "c").2.2 =
        [StoreCall.insertOne "c" newModel.repr] ∧
      (SaveModel newModel okStore "c").1 = newModel.SetID freshId) ∧
    (SaveModel savedModel okStore "c").2.2 =
      [StoreCall.updateOne "c"
        (BVal.doc [("$and", BVal.arr [BVal.doc [("_id", BVal.oid savedModel.GetID)]])])
        (BVal.doc [("$set", savedModel.repr)]) none] :=
  ⟨⟨((saveModel_insert_or_update okStore "c" newModel).1 rfl).1,
    ((saveModel_insert_or_update okStore "c" newModel).1 rfl).2.2
      { insertedID := freshId } rfl⟩,
   ((saveModel_insert_or_update okStore "c" savedModel).2 (by simp [savedModel,
      Model.GetID, freshId, NilObjectID])).1⟩

/-- Claim C10: when the insert issued by `SaveModel` for a model with the
absent sentinel identity fails, the model's identity is left untouched
(still the sentinel) and the insert's error is returned. -/
theorem saveModel_insert_failure_preserves_identity (database : Store) (coll : String)
    (m : Model) (e : StoreErr) (hid : m.GetID = NilObjectID)
    (herr : database.insertOne coll m.repr = .error e) :
    (SaveModel m database coll).1 = m ∧
    ((SaveModel m database coll).1).GetID = NilObjectID ∧
    (SaveModel m database coll).2.1 = some e := by
  refine ⟨?_, ?_, ?_⟩
  · simp [SaveModel, hid, InsertDocument, herr]
  · simp [SaveModel, hid, InsertDocument, herr, hid]
  · simp [SaveModel, hid, InsertDocument, herr]

/-- Witness for C10 at a concrete model against the failing store. -/
theorem saveModel_insert_failure_preserves_identity_witness :
    (SaveModel newModel downStore "c").1 = newModel ∧
    (SaveModel newModel downStore "c").2.1 = some (StoreErr.fault 7) :=
  ⟨(saveModel_insert_failure_preserves_identity downStore "c" newModel
      (StoreErr.fault 7) rfl rfl).1,
   (saveModel_insert_failure_preserves_identity downStore "c" newModel
      (StoreErr.fault 7) rfl rfl).2.2⟩

/-- Claim C2: when the foreign lookup of a join fails (retrieval error,
absent cursor, or cursor decode error), the join contributes no fragment,
no error reaches the outer `Build` (which has no error channel at all),
and the outer filter and mutated filter list are exactly those obtained
with the join removed. -/
theorem join_failure_is_fail_open (database : Store) (j : QueryJoin)
    (h : joinLookupFailed database j = true) :
    (EvaluateJoin database j).2.1 = none ∧
    ∀ (q : List BVal) (fo : Option FindOpts) (uo : Option UpdateOpts)
      (deleteOpts : Option DeleteOpts) (rest : List QueryJoin),
      (QuerySet.Build database (.mk q fo uo deleteOpts (j :: rest))).2.1 =
        (QuerySet.Build database (.mk q fo uo deleteOpts rest)).2.1 ∧
      ((QuerySet.Build database (.mk q fo uo deleteOpts (j :: rest))).1).Query =
        ((QuerySet.Build database (.mk q fo uo deleteOpts rest)).1).Query := by
  have hnone := evaluateJoin_of_failed database j h
  refine ⟨hnone, ?_⟩
  intro q fo uo deleteOpts rest
  rw [build_mk, build_mk, buildJoins_cons, hnone]
  simp [QuerySet.Query]

/-- Witness for C2: a concrete join against the failing store contributes
nothing and the outer query builds as if the join were absent. -/
theorem join_failure_is_fail_open_witness :
    (EvaluateJoin downStore (QueryJoin.mk "a" "ref" "fcoll" emptyQuerySet)).2.1 = none ∧
    (QuerySet.Build downStore joinedQS).2.1 =
      (QuerySet.Build downStore emptyQuerySet).2.1 := by
  have h : joinLookupFailed downStore (QueryJoin.mk "a" "ref" "fcoll" emptyQuerySet)
      = true := by
    simp [joinLookupFailed, getDocuments_eq, downStore]
  exact ⟨(join_failure_is_fail_open downStore _ h).1,
    ((join_failure_is_fail_open downStore _ h).2 [] none none none []).1⟩

/-- Claim C3: when the foreign lookup of a join succeeds, the evaluation
collects the foreign-field value of every returned document, in retrieval
order with duplicates retained, into one membership fragment
`\x7blocal: \x7b"$in": values\x7d\x7d`; with zero matching documents the
fragment is an `$in` over the empty sequence and is still appended by the
outer `Build`; the fragment matches a document exactly when its local
field value is a member of the collected sequence. -/
theorem join_success_builds_in_fragment (database : Store)
    (field joinField joinCollection : String) (q : QuerySet) (entries : List Doc)
    (hg : (GetDocuments database joinCollection (q.Fields [joinField])).2.1 =
      (some (Except.ok entries), none)) :
    (EvaluateJoin database (QueryJoin.mk field joinField joinCollection q)).2.1 =
      some (BVal.doc [(field, BVal.doc [("$in",
        BVal.arr (entries.map (fun entry => lookupField entry joinField)))])]) ∧
    (∀ (ql : List BVal) (fo : Option FindOpts) (uo : Option UpdateOpts)
        (deleteOpts : Option DeleteOpts),
      ((QuerySet.Build database
          (.mk ql fo uo deleteOpts
            [QueryJoin.mk field joinField joinCollection q])).1).Query =
        ql ++ [BVal.doc [(field, BVal.doc [("$in",
          BVal.arr (entries.map (fun entry => lookupField entry joinField)))])]]) ∧
    (entries = [] →
      (EvaluateJoin database (QueryJoin.mk field joinField joinCollection q)).2.1 =
        some (BVal.doc [(field, BVal.doc [("$in", BVal.arr [])])])) ∧
    (field ≠ "$and" → field ≠ "$or" → field ≠ "$nor" → ∀ d : Doc,
      matchesFilter (BVal.doc [(field, BVal.doc [("$in",
        BVal.arr (entries.map (fun entry => lookupField entry joinField)))])]) d =
      bvalMem (lookupField d field)
        (entries.map (fun entry => lookupField entry joinField))) := by
  have he := evaluateJoin_of_ok database field joinField joinCollection q entries hg
  refine ⟨?_, ?_, ?_, ?_⟩
  · rw [he]
  · intro ql fo uo deleteOpts
    rw [build_mk, buildJoins_cons, buildJoins_nil, he]
    simp [QuerySet.Query]
  · intro hempty
    subst hempty
    rw [he]
    simp
  · intro h1 h2 h3 d
    simp [matchesFilter, matchesConds, matchesCond, h1, h2, h3]

/-- Witness for C3: the concrete succeeding store yields one foreign
document with "ref" = 1, so the join contributes the membership fragment
over [1] and the outer build appends it. -/
theorem join_success_builds_in_fragment_witness :
    (EvaluateJoin okStore (QueryJoin.mk "a" "ref" "fcoll" emptyQuerySet)).2.1 =
      some (BVal.doc [("a", BVal.doc [("$in", BVal.arr [BVal.int 1])])]) ∧
    ((QuerySet.Build okStore joinedQS).1).Query =
      [BVal.doc [("a", BVal.doc [("$in", BVal.arr [BVal.int 1])])]] := by
  have hg : (GetDocuments okStore "fcoll" (emptyQuerySet.Fields ["ref"])).2.1 =
      (some (Except.ok [[("ref", BVal.int 1)]]), none) := by
    simp [getDocuments_eq, okStore]
  have h := join_success_builds_in_fragment okStore "a" "ref" "fcoll" emptyQuerySet
    [[("ref", BVal.int 1)]] hg
  constructor
  · have h1 := h.1
    simpa [lookupField] using h1
  · have h2 := h.2.1 [] none none none
    simpa [lookupField, joinedQS] using h2

/-- Claim C1, amended: `Build` is side-effect-free and idempotent on every
query set with no declared joins — it returns the query set unchanged,
issues no store call, and agrees with the joins-free
src/MongodbUtilities.go `Build` — but when joins are declared it appends
the evaluated join fragments to the filter list, so it is neither
side-effect-free nor idempotent there. -/
theorem build_pure_without_joins (database : Store) (qs : QuerySet)
    (h : qs.Joins = []) :
    QuerySet.Build database qs = (qs, BVal.doc [("$and", BVal.arr qs.Query)], []) ∧
    (QuerySet.Build database ((QuerySet.Build database qs).1)).2.1 =
      (QuerySet.Build database qs).2.1 ∧
    GoMain.Build qs = (QuerySet.Build database qs).2.1 := by
  obtain ⟨q, fo, uo, deleteOpts, js⟩ := qs
  simp only [QuerySet.Joins] at h
  subst h
  refine ⟨?_, ?_, ?_⟩
  · simp [build_mk, buildJoins_nil, QuerySet.Query]
  · simp [build_mk, buildJoins_nil]
  · simp [build_mk, buildJoins_nil, GoMain.Build, QuerySet.Query]

/-- Witness for the amended C1 at the empty query set. -/
theorem build_pure_without_joins_witness :
    QuerySet.Build downStore emptyQuerySet =
      (emptyQuerySet, BVal.doc [("$and", BVal.arr [])], []) :=
  (build_pure_without_joins downStore emptyQuerySet rfl).1

/-- Counterexample for C1 as frozen: on a concrete query set with one
declared join whose lookup succeeds, `Build` changes the filter list (the
join fragment is appended), and a second `Build` produces a different
filter than the first (the fragment is appended again). -/
theorem build_mutates_with_joins_counterexample :
    ((QuerySet.Build okStore joinedQS).1).Query ≠ joinedQS.Query ∧
    (QuerySet.Build okStore ((QuerySet.Build okStore joinedQS).1)).2.1 ≠
      (QuerySet.Build okStore joinedQS).2.1 := by
  have hg : (GetDocuments okStore "fcoll" (emptyQuerySet.Fields ["ref"])).2.1 =
      (some (Except.ok [[("ref", BVal.int 1)]]), none) := by
    simp [getDocuments_eq, okStore]
  have he := evaluateJoin_of_ok okStore "a" "ref" "fcoll" emptyQuerySet
    [[("ref", BVal.int 1)]] hg
  have hinner : (GetDocuments okStore "fcoll" (emptyQuerySet.Fields ["ref"])).1 =
      emptyQuerySet.Fields ["ref"] := by
    rw [getDocuments_eq]
    simp [QuerySet.Fields, QuerySet.InitializeOptions, emptyQuerySet, build_mk,
      buildJoins_nil]
  have hg2 : (GetDocuments okStore "fcoll"
        ((emptyQuerySet.Fields ["ref"]).Fields ["ref"])).2.1 =
      (some (Except.ok [[("ref", BVal.int 1)]]), none) := by
    simp [getDocuments_eq, okStore]
  have he2 := evaluateJoin_of_ok okStore "a" "ref" "fcoll"
    (emptyQuerySet.Fields ["ref"]) [[("ref", BVal.int 1)]] hg2
  constructor
  · simp only [joinedQS, build_mk, buildJoins_cons, buildJoins_nil, he]
    simp [QuerySet.Query, lookupField]
  · simp only [joinedQS, build_mk, buildJoins_cons, buildJoins_nil, he, hinner]
    simp only [QuerySet.Query, List.nil_append, Option.toList_some, List.append_nil]
    simp only [build_mk, buildJoins_cons, buildJoins_nil, he2]
    simp [lookupField]
